import Mathlib

/-!
Shallow embedding of `src/main.js` (three.js asteroid-field demo).

Numbers are modelled as exact rationals (`ℚ`); the JS literals 0.1, 0.05,
0.01, 0.5, 0.0001 become 1/10, 1/20, 1/100, 1/2, 1/10000.  Colors are the
hex values stored in the palette.  The mutable globals of the script
(`spaceshipShaderMaterial`'s uniforms, the `asteroids` array, `stars`
rotation, `spaceship`, `camera`, `currentColorIndex`) become fields of a
`State` record; the render tick, the keydown handler, the click handler
and the two loader callbacks become a `step` function on events.
-/

/-- A 3-component vector, as `THREE.Vector3` / `Euler` used by the script. -/
structure Vec3 where
  x : ℚ
  y : ℚ
  z : ℚ
deriving DecidableEq

/-- A material slot of a scene node: either a `ShaderMaterial` instance
(with its own `time` and `color` uniforms and its dirty flags) or any
other material (the GLTF's original, the asteroid Phong material, ...). -/
inductive Material where
  | shader (time : ℚ) (color : ℕ) (needsUpdate : Bool) (uniformsNeedUpdate : Bool)
  | other
deriving DecidableEq

/-- A node of the loaded spaceship subtree as seen by `traverse`:
its `isMesh` flag and its material. -/
structure SceneNode where
  isMesh : Bool
  material : Material
deriving DecidableEq

/-- The published spaceship object (`gltf.scene` after the success callback). -/
structure Spaceship where
  position : Vec3
  scale : Vec3
  nodes : List SceneNode
deriving DecidableEq

/-- The raw result handed to the `loader.load` success callback; its
position and scale are overwritten by the callback. -/
structure Gltf where
  position : Vec3
  scale : Vec3
  nodes : List SceneNode
deriving DecidableEq

/-- One asteroid mesh: its transform (shared geometry/material are not
modelled since no claim touches them). -/
structure Asteroid where
  position : Vec3
  rotation : Vec3
deriving DecidableEq

/-- The perspective camera: its position and, as orientation, the point
the last `lookAt` call aimed it at (`none` before any `lookAt`). -/
structure Camera where
  position : Vec3
  lookTarget : Option Vec3
deriving DecidableEq

/-- The whole mutable state of the script. -/
structure State where
  /-- `spaceshipShaderMaterial.uniforms.time.value` (the template material). -/
  timeUniform : ℚ
  /-- `spaceshipShaderMaterial.uniforms.color.value` (as a hex value). -/
  templateColor : ℕ
  /-- the `asteroids` array. -/
  asteroids : List Asteroid
  /-- `stars.rotation.y`. -/
  starsRotY : ℚ
  /-- the `spaceship` global: `none` until the success callback runs. -/
  spaceship : Option Spaceship
  camera : Camera
  /-- `currentColorIndex`. -/
  currentColorIndex : ℕ
  /-- whether `scene.add(spaceship)` has run. -/
  sceneHasSpaceship : Bool
  /-- whether the error callback has reported a load error. -/
  errorReported : Bool
deriving DecidableEq

/-- `const colors = [silver 0xc0c0c0, ash 0xb0b0b0, white 0xffffff]`. -/
def colors : List ℕ := [0xc0c0c0, 0xb0b0b0, 0xffffff]

/-- `let asteroidSpeed = 0.1`. -/
def asteroidSpeed : ℚ := 1 / 10

/-- The per-asteroid body of the `forEach` in `animate`:
rotation.x += 0.01; rotation.y += 0.01; position.z += asteroidSpeed;
if (position.z > 10) position.z = -50. -/
def asteroidTick (a : Asteroid) : Asteroid :=
  { position := { a.position with
      z := if a.position.z + asteroidSpeed > 10 then -50 else a.position.z + asteroidSpeed }
    rotation := { a.rotation with x := a.rotation.x + 1 / 100, y := a.rotation.y + 1 / 100 } }

/-- The `if (spaceship) { camera.position... ; camera.lookAt(...) }` block. -/
def cameraFollow (sp : Option Spaceship) (c : Camera) : Camera :=
  match sp with
  | none => c
  | some s =>
    { position := ⟨s.position.x, s.position.y, s.position.z + 10⟩
      lookTarget := some s.position }

/-- One pass of the `animate` render loop body (minus the actual
`renderer.render` call, which reads but does not mutate this state):
advance the time uniform by 0.05, update every asteroid, rotate the
stars by -0.0001, follow the spaceship with the camera if present. -/
def tick (s : State) : State :=
  { s with
    timeUniform := s.timeUniform + 1 / 20
    asteroids := s.asteroids.map asteroidTick
    starsRotY := s.starsRotY + (-(1 / 10000))
    camera := cameraFollow s.spaceship s.camera }

/-- The key of a keydown event, as the `switch (event.key)` distinguishes it. -/
inductive Key where
  | arrowUp
  | arrowDown
  | arrowLeft
  | arrowRight
  | otherKey
deriving DecidableEq

/-- The `switch` of the keydown handler, acting on `spaceship.position`. -/
def keyMove (k : Key) (p : Vec3) : Vec3 :=
  match k with
  | .arrowUp => { p with y := p.y + 1 / 2 }
  | .arrowDown => { p with y := p.y - 1 / 2 }
  | .arrowLeft => { p with x := p.x - 1 / 2 }
  | .arrowRight => { p with x := p.x + 1 / 2 }
  | .otherKey => p

/-- The keydown listener: `if (spaceship) { switch (event.key) ... }`. -/
def keydown (k : Key) (s : State) : State :=
  match s.spaceship with
  | none => s
  | some sp => { s with spaceship := some { sp with position := keyMove k sp.position } }

/-- The `traverse` body of the click handler: if the child is a mesh and
its material is a ShaderMaterial, copy the new palette color into its
`color` uniform and set `uniformsNeedUpdate`. -/
def clickNode (newColor : ℕ) (n : SceneNode) : SceneNode :=
  match n.material with
  | .shader t _ nu _ =>
    if n.isMesh then { n with material := .shader t newColor nu true } else n
  | .other => n

/-- The click listener: advance `currentColorIndex` mod `colors.length`,
then if the spaceship is present recolor its shader-material meshes. -/
def click (s : State) : State :=
  { s with
    currentColorIndex := (s.currentColorIndex + 1) % colors.length
    spaceship :=
      match s.spaceship with
      | none => none
      | some sp =>
        some { sp with
          nodes := sp.nodes.map
            (clickNode (colors.getD ((s.currentColorIndex + 1) % colors.length) 0)) } }

/-- The `traverse` body of the load success callback: every mesh child
gets `spaceshipShaderMaterial.clone()` (an independent copy of the
template's current uniform values) with `needsUpdate = true`. -/
def loadNode (s : State) (n : SceneNode) : SceneNode :=
  if n.isMesh then { n with material := .shader s.timeUniform s.templateColor true false } else n

/-- The load success callback: publish `gltf.scene` as `spaceship`, with
scale (2,2,2), position (0,0,0), added to the scene, every mesh child
rematerialized with a clone of the template shader material. -/
def loadSuccess (g : Gltf) (s : State) : State :=
  { s with
    spaceship := some
      { position := ⟨0, 0, 0⟩
        scale := ⟨2, 2, 2⟩
        nodes := g.nodes.map (loadNode s) }
    sceneHasSpaceship := true }

/-- The load error callback: `console.error(...)` and nothing else. -/
def loadError (s : State) : State :=
  { s with errorReported := true }

/-- The events the script reacts to, each dispatched on the single
event-loop thread, never concurrent with one another. -/
inductive Event where
  | tick
  | keydown (k : Key)
  | click
  | loadSuccess (g : Gltf)
  | loadError
deriving DecidableEq

/-- Dispatch one event to its handler. -/
def step (s : State) : Event → State
  | .tick => tick s
  | .keydown k => keydown k s
  | .click => click s
  | .loadSuccess g => loadSuccess g s
  | .loadError => loadError s

/-- Run a sequence of events from a state. -/
def run (s : State) (evs : List Event) : State := evs.foldl step s

/-- The state right after the top-level script has run (before any event):
time uniform 1.0, template color silver, camera at (0,0,10), no spaceship,
color index 0; the 50 asteroid initial positions are random, so they are a
parameter (their rotations start at 0, the `THREE.Mesh` default). -/
def initState (ps : List Vec3) : State :=
  { timeUniform := 1
    templateColor := 0xc0c0c0
    asteroids := ps.map (fun p => { position := p, rotation := ⟨0, 0, 0⟩ })
    starsRotY := 0
    spaceship := none
    camera := { position := ⟨0, 0, 10⟩, lookTarget := none }
    currentColorIndex := 0
    sceneHasSpaceship := false
    errorReported := false }

/-- Is this event a click? -/
def isClick : Event → Bool
  | .click => true
  | _ => false

/-- Is this event a load success? -/
def isSuccess : Event → Bool
  | .loadSuccess _ => true
  | _ => false

/-- Is this event either outcome of the single `loader.load` call? -/
def isLoadOutcome : Event → Bool
  | .loadSuccess _ => true
  | .loadError => true
  | _ => false

/-- The model `loader.load` is dispatched exactly once, so a real event
trace carries at most one load outcome. -/
def LoadOnce (evs : List Event) : Prop := evs.countP isLoadOutcome ≤ 1

/-- The spaceship's nodes, or `[]` while it is absent. -/
def nodesOf (s : State) : List SceneNode :=
  match s.spaceship with
  | none => []
  | some sp => sp.nodes

/-- The `color` uniform of a material, when it is a shader material. -/
def shaderColor : Material → Option ℕ
  | .shader _ c _ _ => some c
  | .other => none

/-- A concrete one-mesh GLTF result, used to instantiate theorems. -/
def gltfOne : Gltf :=
  { position := ⟨0, 0, 0⟩
    scale := ⟨1, 1, 1⟩
    nodes := [{ isMesh := true, material := Material.other }] }

/-! ## Helper lemmas shared across claims -/

theorem run_nil (s : State) : run s [] = s := rfl

theorem run_cons (s : State) (e : Event) (l : List Event) :
    run s (e :: l) = run (step s e) l := rfl

theorem run_append (s : State) (l₁ l₂ : List Event) :
    run s (l₁ ++ l₂) = run (run s l₁) l₂ :=
  List.foldl_append step s l₁ l₂

set_option linter.unnecessarySeqFocus false in
theorem step_templateColor (s : State) (e : Event) :
    (step s e).templateColor = s.templateColor := by
  cases e <;>
    simp only [step, tick, click, keydown, loadSuccess, loadError] <;>
    cases h : s.spaceship <;> simp

theorem run_templateColor (s : State) (evs : List Event) :
    (run s evs).templateColor = s.templateColor := by
  induction evs generalizing s with
  | nil => rfl
  | cons e l ih => rw [run_cons, ih, step_templateColor]

theorem step_colorIndex (s : State) (e : Event) :
    (step s e).currentColorIndex =
      if isClick e then (s.currentColorIndex + 1) % 3 else s.currentColorIndex := by
  cases e <;>
    simp only [step, tick, click, keydown, loadSuccess, loadError, isClick, colors,
      List.length_cons, List.length_nil, if_true, if_false] <;>
    cases h : s.spaceship <;> simp

theorem run_colorIndex (s : State) (evs : List Event) (h : s.currentColorIndex < 3) :
    (run s evs).currentColorIndex = (s.currentColorIndex + evs.countP isClick) % 3 := by
  induction evs generalizing s with
  | nil => simp [run_nil, Nat.mod_eq_of_lt h]
  | cons e l ih =>
    rw [run_cons, List.countP_cons]
    by_cases hc : isClick e = true
    · have hlt : (step s e).currentColorIndex < 3 := by
        rw [step_colorIndex, if_pos hc]; omega
      rw [ih _ hlt, step_colorIndex, if_pos hc]
      simp only [hc, if_true]
      omega
    · have hidx : (step s e).currentColorIndex = s.currentColorIndex := by
        rw [step_colorIndex, if_neg hc]
      rw [ih _ (by rw [hidx]; exact h), hidx]
      simp [hc]

theorem run_replicate_tick_time (s : State) (n : ℕ) :
    (run s (List.replicate n Event.tick)).timeUniform = s.timeUniform + (1 / 20) * n := by
  induction n generalizing s with
  | zero => simp [run_nil]
  | succ m ih =>
    rw [List.replicate_succ, run_cons]
    show (run (tick s) (List.replicate m Event.tick)).timeUniform = _
    rw [ih (tick s)]
    simp only [tick]
    push_cast
    ring

theorem step_no_success (s : State) (e : Event) (h : s.spaceship = none)
    (he : isSuccess e = false) :
    (step s e).spaceship = none ∧ (step s e).camera = s.camera := by
  cases e <;> simp_all [step, tick, click, keydown, loadSuccess, loadError,
    cameraFollow, isSuccess]

theorem run_no_success (s : State) (evs : List Event) (h : s.spaceship = none)
    (hn : evs.countP isSuccess = 0) :
    (run s evs).spaceship = none ∧ (run s evs).camera = s.camera := by
  induction evs generalizing s with
  | nil => exact ⟨h, rfl⟩
  | cons e l ih =>
    rw [List.countP_cons] at hn
    have he : isSuccess e = false := by
      cases hx : isSuccess e with
      | false => rfl
      | true => rw [hx] at hn; simp at hn
    rw [he] at hn
    simp only [Bool.false_eq_true, if_false, Nat.add_zero] at hn
    have hstep := step_no_success s e h he
    rw [run_cons]
    have := ih (step s e) hstep.1 hn
    exact ⟨this.1, this.2.trans hstep.2⟩

/-- The z coordinate of the spaceship (when present) is zero. -/
def ShipZ0 (s : State) : Prop := ∀ sp, s.spaceship = some sp → sp.position.z = 0

theorem keyMove_z (k : Key) (p : Vec3) : (keyMove k p).z = p.z := by
  cases k <;> rfl

theorem step_shipZ0 (s : State) (e : Event) (h : ShipZ0 s) : ShipZ0 (step s e) := by
  cases e with
  | tick =>
    intro sp hsp
    simp only [step, tick] at hsp
    exact h sp hsp
  | keydown k =>
    intro sp hsp
    simp only [step, keydown] at hsp
    cases hs : s.spaceship with
    | none => rw [hs] at hsp; exact h sp hsp
    | some sp0 =>
      rw [hs] at hsp
      simp only [Option.some.injEq] at hsp
      rw [← hsp]
      simpa [keyMove_z] using h sp0 hs
  | click =>
    intro sp hsp
    simp only [step, click] at hsp
    cases hs : s.spaceship with
    | none => rw [hs] at hsp; exact absurd hsp (by simp)
    | some sp0 =>
      rw [hs] at hsp
      simp only [Option.some.injEq] at hsp
      rw [← hsp]
      simpa using h sp0 hs
  | loadSuccess g =>
    intro sp hsp
    simp only [step, loadSuccess, Option.some.injEq] at hsp
    rw [← hsp]
  | loadError =>
    intro sp hsp
    simp only [step, loadError] at hsp
    exact h sp hsp

theorem run_shipZ0 (s : State) (evs : List Event) (h : ShipZ0 s) :
    ShipZ0 (run s evs) := by
  induction evs generalizing s with
  | nil => exact h
  | cons e l ih => exact ih (step s e) (step_shipZ0 s e h)

/-! ## Claim theorems -/

/-- C1: on every render tick each asteroid's update applies the increment
before checking the threshold: position.z becomes prior + 0.1, and if that
incremented value exceeds 10 it is reset to -50 on the same tick; in
particular an asteroid starting at z = 9.95 ends the tick at z = -50. -/
theorem asteroid_increment_then_check :
    (∀ s : State, (tick s).asteroids = s.asteroids.map asteroidTick) ∧
    (∀ a : Asteroid, (asteroidTick a).position.z =
      if a.position.z + 1 / 10 > 10 then -50 else a.position.z + 1 / 10) ∧
    (∀ a : Asteroid, a.position.z = 199 / 20 → (asteroidTick a).position.z = -50) := by
  refine ⟨fun s => rfl, fun a => rfl, fun a h => ?_⟩
  show (if a.position.z + asteroidSpeed > 10 then (-50 : ℚ)
    else a.position.z + asteroidSpeed) = -50
  rw [h, if_pos (by norm_num [asteroidSpeed])]

theorem asteroid_increment_then_check_witness :
    ((⟨⟨0, 0, 199 / 20⟩, ⟨0, 0, 0⟩⟩ : Asteroid).position.z = 199 / 20) ∧
    (asteroidTick ⟨⟨0, 0, 199 / 20⟩, ⟨0, 0, 0⟩⟩).position.z = -50 :=
  ⟨rfl, asteroid_increment_then_check.2.2 ⟨⟨0, 0, 199 / 20⟩, ⟨0, 0, 0⟩⟩ rfl⟩

/-- C2 counterexample: an asteroid whose prior z is 9.95 has prior value
not greater than 10, yet after the tick its z is not prior + 0.1 — the
code wraps it to -50, because the threshold is checked after incrementing. -/
theorem asteroid_prior_over_ten_counterexample :
    ¬ ((⟨⟨0, 0, 199 / 20⟩, ⟨0, 0, 0⟩⟩ : Asteroid).position.z > 10) ∧
    (asteroidTick ⟨⟨0, 0, 199 / 20⟩, ⟨0, 0, 0⟩⟩).position.z ≠
      (⟨⟨0, 0, 199 / 20⟩, ⟨0, 0, 0⟩⟩ : Asteroid).position.z + 1 / 10 ∧
    (asteroidTick ⟨⟨0, 0, 199 / 20⟩, ⟨0, 0, 0⟩⟩).position.z = -50 := by
  refine ⟨by norm_num, ?_, ?_⟩ <;>
    · show _
      norm_num [asteroidTick, asteroidSpeed]

/-- C2 amended: for every render tick and index i, asteroid i's z after
the tick equals prior + 0.1, unless the prior value was greater than 9.9
(equivalently, unless the incremented value exceeds 10), in which case the
new value is exactly -50. -/
theorem asteroid_tick_z_amended (s : State) (i : ℕ) (a : Asteroid)
    (h : s.asteroids[i]? = some a) :
    ((tick s).asteroids)[i]? = some (asteroidTick a) ∧
    (asteroidTick a).position.z =
      if a.position.z > 99 / 10 then -50 else a.position.z + 1 / 10 := by
  constructor
  · show (s.asteroids.map asteroidTick)[i]? = some (asteroidTick a)
    rw [List.getElem?_map, h]; rfl
  · show (if a.position.z + asteroidSpeed > 10 then (-50 : ℚ)
      else a.position.z + asteroidSpeed) = _
    by_cases hc : a.position.z > 99 / 10
    · rw [if_pos hc, if_pos (by rw [asteroidSpeed]; linarith)]
    · rw [if_neg hc, if_neg (by rw [asteroidSpeed]; push_neg at hc ⊢; linarith),
        asteroidSpeed]

theorem asteroid_tick_z_amended_witness :
    ((initState [⟨0, 0, 0⟩]).asteroids[0]? = some ⟨⟨0, 0, 0⟩, ⟨0, 0, 0⟩⟩) ∧
    (((tick (initState [⟨0, 0, 0⟩])).asteroids)[0]? =
        some (asteroidTick ⟨⟨0, 0, 0⟩, ⟨0, 0, 0⟩⟩) ∧
      (asteroidTick (⟨⟨0, 0, 0⟩, ⟨0, 0, 0⟩⟩ : Asteroid)).position.z =
        if (⟨⟨0, 0, 0⟩, ⟨0, 0, 0⟩⟩ : Asteroid).position.z > 99 / 10 then -50
        else (⟨⟨0, 0, 0⟩, ⟨0, 0, 0⟩⟩ : Asteroid).position.z + 1 / 10) :=
  ⟨rfl, asteroid_tick_z_amended (initState [⟨0, 0, 0⟩]) 0 ⟨⟨0, 0, 0⟩, ⟨0, 0, 0⟩⟩ rfl⟩

/-- C9: after any render tick, every asteroid's position.z is at most 10
(the wrap bounds it even when the prior position exceeds 10), and the tick
never changes any asteroid's position.x or position.y. -/
theorem asteroid_tick_bound_invariant (s : State) (i : ℕ) (a : Asteroid)
    (h : s.asteroids[i]? = some a) :
    ∃ b, ((tick s).asteroids)[i]? = some b ∧
      b.position.z ≤ 10 ∧ b.position.x = a.position.x ∧ b.position.y = a.position.y := by
  refine ⟨asteroidTick a, ?_, ?_, rfl, rfl⟩
  · show (s.asteroids.map asteroidTick)[i]? = some (asteroidTick a)
    rw [List.getElem?_map, h]; rfl
  · show (if a.position.z + asteroidSpeed > 10 then (-50 : ℚ)
      else a.position.z + asteroidSpeed) ≤ 10
    by_cases hc : a.position.z + asteroidSpeed > 10
    · rw [if_pos hc]; norm_num
    · rw [if_neg hc]; push_neg at hc; exact hc

theorem asteroid_tick_bound_invariant_witness :
    ((initState [⟨25, -3, 30⟩]).asteroids[0]? = some ⟨⟨25, -3, 30⟩, ⟨0, 0, 0⟩⟩) ∧
    ∃ b, ((tick (initState [⟨25, -3, 30⟩])).asteroids)[0]? = some b ∧
      b.position.z ≤ 10 ∧ b.position.x = (⟨⟨25, -3, 30⟩, ⟨0, 0, 0⟩⟩ : Asteroid).position.x ∧
      b.position.y = (⟨⟨25, -3, 30⟩, ⟨0, 0, 0⟩⟩ : Asteroid).position.y :=
  ⟨rfl, asteroid_tick_bound_invariant (initState [⟨25, -3, 30⟩]) 0
    ⟨⟨25, -3, 30⟩, ⟨0, 0, 0⟩⟩ rfl⟩

theorem countP_replicate_click (n : ℕ) :
    (List.replicate n Event.click).countP isClick = n := by
  induction n with
  | zero => rfl
  | succ m ih => rw [List.replicate_succ, List.countP_cons, ih]; simp [isClick]

/-- C3: the shader time uniform starts at 1.0 and strictly increases by
exactly 0.05 on every render tick, so after n ticks it is 1.0 + 0.05 * n. -/
theorem time_uniform_linear :
    (∀ ps : List Vec3, (initState ps).timeUniform = 1) ∧
    (∀ s : State, (tick s).timeUniform = s.timeUniform + 1 / 20 ∧
      s.timeUniform < (tick s).timeUniform) ∧
    (∀ (ps : List Vec3) (n : ℕ),
      (run (initState ps) (List.replicate n Event.tick)).timeUniform = 1 + (1 / 20) * n) := by
  refine ⟨fun ps => rfl,
    fun s => ⟨rfl, by show s.timeUniform < s.timeUniform + 1 / 20; linarith⟩,
    fun ps n => ?_⟩
  rw [run_replicate_tick_time]
  show (1 : ℚ) + 1 / 20 * n = 1 + 1 / 20 * n
  rfl

/-- C4: the palette index is a pure function of the click count — after
any event sequence it equals (number of clicks) mod 3 — over the ordered
palette [silver 0xc0c0c0, ash 0xb0b0b0, white 0xffffff], wrapping back to
silver after 3 clicks; and with zero clicks and the spaceship just loaded,
every mesh node's color uniform is the default silver 0xc0c0c0. -/
theorem palette_index_pure_function :
    (∀ (ps : List Vec3) (evs : List Event),
      (run (initState ps) evs).currentColorIndex = evs.countP isClick % 3) ∧
    (∀ (ps : List Vec3) (n : ℕ),
      (run (initState ps) (List.replicate n Event.click)).currentColorIndex = n % 3) ∧
    colors = [0xc0c0c0, 0xb0b0b0, 0xffffff] ∧
    (∀ (ps : List Vec3) (g : Gltf) (node : SceneNode),
      node ∈ nodesOf (run (initState ps) [Event.loadSuccess g]) → node.isMesh = true →
      shaderColor node.material = some 0xc0c0c0) := by
  have hidx : ∀ (ps : List Vec3) (evs : List Event),
      (run (initState ps) evs).currentColorIndex = evs.countP isClick % 3 := by
    intro ps evs
    rw [run_colorIndex (initState ps) evs (by norm_num [initState])]
    simp [initState]
  refine ⟨hidx, fun ps n => ?_, rfl, fun ps g node hmem hmesh => ?_⟩
  · rw [hidx, countP_replicate_click]
  · have hn : nodesOf (run (initState ps) [Event.loadSuccess g]) =
        g.nodes.map (loadNode (initState ps)) := rfl
    rw [hn, List.mem_map] at hmem
    obtain ⟨m, hm, rfl⟩ := hmem
    by_cases hmm : m.isMesh = true
    · simp [loadNode, hmm, shaderColor, initState]
    · simp [loadNode, hmm] at hmesh

theorem palette_index_pure_function_witness :
    (run (initState []) [Event.loadSuccess gltfOne]).currentColorIndex =
      ([Event.loadSuccess gltfOne].countP isClick) % 3 ∧
    shaderColor (Material.shader 1 0xc0c0c0 true false) = some 0xc0c0c0 :=
  ⟨palette_index_pure_function.1 [] [Event.loadSuccess gltfOne],
   palette_index_pure_function.2.2.2 [] gltfOne
     ⟨true, Material.shader 1 0xc0c0c0 true false⟩ (List.Mem.head _) rfl⟩

/-- C5: on every render tick with the spaceship present, the camera is
placed at (spaceship.x, spaceship.y, spaceship.z + 10) and looks at the
spaceship position; while the spaceship is absent a tick leaves the camera
unchanged, and the camera's initial position is (0, 0, 10). -/
theorem camera_follow_spec :
    (∀ (s : State) (sp : Spaceship), s.spaceship = some sp →
      (tick s).camera.position = ⟨sp.position.x, sp.position.y, sp.position.z + 10⟩ ∧
      (tick s).camera.lookTarget = some sp.position) ∧
    (∀ s : State, s.spaceship = none → (tick s).camera = s.camera) ∧
    (∀ ps : List Vec3, (initState ps).camera.position = ⟨0, 0, 10⟩) := by
  refine ⟨fun s sp h => ?_, fun s h => ?_, fun ps => rfl⟩
  · show (cameraFollow s.spaceship s.camera).position = _ ∧
      (cameraFollow s.spaceship s.camera).lookTarget = _
    rw [h]
    exact ⟨rfl, rfl⟩
  · show cameraFollow s.spaceship s.camera = s.camera
    rw [h]
    rfl

theorem camera_follow_spec_witness :
    ((step (initState []) (Event.loadSuccess gltfOne)).spaceship =
      some ⟨⟨0, 0, 0⟩, ⟨2, 2, 2⟩, [⟨true, Material.shader 1 0xc0c0c0 true false⟩]⟩) ∧
    ((tick (step (initState []) (Event.loadSuccess gltfOne))).camera.position =
        ⟨0, 0, (0 : ℚ) + 10⟩ ∧
      (tick (step (initState []) (Event.loadSuccess gltfOne))).camera.lookTarget =
        some ⟨0, 0, 0⟩) ∧
    (tick (initState [])).camera = (initState []).camera :=
  ⟨rfl,
   camera_follow_spec.1 (step (initState []) (Event.loadSuccess gltfOne))
     ⟨⟨0, 0, 0⟩, ⟨2, 2, 2⟩, [⟨true, Material.shader 1 0xc0c0c0 true false⟩]⟩ rfl,
   camera_follow_spec.2.1 (initState []) rfl⟩

/-- C6: for every key-down event: with the spaceship present, ArrowUp adds
+0.5 to spaceship y, ArrowDown adds -0.5 to y, ArrowLeft adds -0.5 to x,
ArrowRight adds +0.5 to x, and nothing else in the state changes; with the
spaceship absent the event changes no state at all. -/
theorem keydown_handler_spec :
    (∀ (s : State) (k : Key), s.spaceship = none → step s (Event.keydown k) = s) ∧
    (∀ (s : State) (sp : Spaceship) (k : Key), s.spaceship = some sp →
      step s (Event.keydown k) =
        { s with spaceship := some { sp with position := keyMove k sp.position } }) ∧
    (∀ p : Vec3,
      keyMove Key.arrowUp p = { p with y := p.y + 1 / 2 } ∧
      keyMove Key.arrowDown p = { p with y := p.y - 1 / 2 } ∧
      keyMove Key.arrowLeft p = { p with x := p.x - 1 / 2 } ∧
      keyMove Key.arrowRight p = { p with x := p.x + 1 / 2 } ∧
      keyMove Key.otherKey p = p) := by
  refine ⟨fun s k h => ?_, fun s sp k h => ?_, fun p => ⟨rfl, rfl, rfl, rfl, rfl⟩⟩
  · show keydown k s = s
    unfold keydown
    rw [h]
  · show keydown k s = _
    unfold keydown
    rw [h]

theorem keydown_handler_spec_witness :
    (step (initState []) (Event.keydown Key.arrowUp) = initState []) ∧
    (step (step (initState []) (Event.loadSuccess gltfOne)) (Event.keydown Key.arrowUp) =
      { step (initState []) (Event.loadSuccess gltfOne) with
        spaceship := some
          { (⟨⟨0, 0, 0⟩, ⟨2, 2, 2⟩,
              [⟨true, Material.shader 1 0xc0c0c0 true false⟩]⟩ : Spaceship) with
            position := keyMove Key.arrowUp ⟨0, 0, 0⟩ } }) :=
  ⟨keydown_handler_spec.1 (initState []) Key.arrowUp rfl,
   keydown_handler_spec.2.1 (step (initState []) (Event.loadSuccess gltfOne))
     ⟨⟨0, 0, 0⟩, ⟨2, 2, 2⟩, [⟨true, Material.shader 1 0xc0c0c0 true false⟩]⟩
     Key.arrowUp rfl⟩

/-- Is this event the load error outcome? -/
def isError : Event → Bool
  | .loadError => true
  | _ => false

theorem countP_outcome_split (l : List Event) :
    l.countP isLoadOutcome = l.countP isSuccess + l.countP isError := by
  induction l with
  | nil => rfl
  | cons e t ih =>
    rw [List.countP_cons, List.countP_cons, List.countP_cons, ih]
    cases e <;> simp [isSuccess, isError, isLoadOutcome] <;> omega

theorem countP_error_pos (l : List Event) (h : Event.loadError ∈ l) :
    1 ≤ l.countP isError := by
  induction l with
  | nil => cases h
  | cons e t ih =>
    rw [List.countP_cons]
    rcases List.mem_cons.mp h with he | ht
    · rw [← he]; simp [isError]
    · have := ih ht; omega

theorem countP_replicate_click_success (n : ℕ) :
    (List.replicate n Event.click).countP isSuccess = 0 := by
  induction n with
  | zero => rfl
  | succ m ih => rw [List.replicate_succ, List.countP_cons, ih]; simp [isSuccess]

/-- C7 counterexample: one click before the load leaves the palette index
at 1, yet immediately after the load the single mesh node's color uniform
IS the default silver 0xc0c0c0 — the clone copies the template material,
which the pre-load click never touched. -/
theorem click_before_load_counterexample :
    (run (initState []) [Event.click, Event.loadSuccess gltfOne]).currentColorIndex = 1 ∧
    nodesOf (run (initState []) [Event.click, Event.loadSuccess gltfOne]) =
      [⟨true, Material.shader 1 0xc0c0c0 true false⟩] ∧
    shaderColor (Material.shader 1 0xc0c0c0 true false) = some 0xc0c0c0 :=
  ⟨rfl, rfl, rfl⟩

/-- C7 amended: clicks before the spaceship loads still advance the
palette index (mod 3) with no visible effect (the spaceship stays absent),
but the spaceship's initial material color uniform immediately after load
IS the default silver 0xc0c0c0: each clone copies the template material's
color, which the pre-load clicks never modify, so the color is
desynchronized from the palette index until the next click. -/
theorem click_before_load_amended (ps : List Vec3) (n : ℕ) (g : Gltf)
    (node : SceneNode)
    (hmem : node ∈ nodesOf (run (initState ps)
      (List.replicate n Event.click ++ [Event.loadSuccess g])))
    (hmesh : node.isMesh = true) :
    (run (initState ps) (List.replicate n Event.click)).currentColorIndex = n % 3 ∧
    (run (initState ps) (List.replicate n Event.click)).spaceship = none ∧
    shaderColor node.material = some 0xc0c0c0 := by
  have hzero := countP_replicate_click_success n
  refine ⟨?_, (run_no_success (initState ps) _ rfl hzero).1, ?_⟩
  · rw [run_colorIndex _ _ (by norm_num [initState]), countP_replicate_click]
    simp [initState]
  · rw [run_append] at hmem
    have hn : nodesOf (run (run (initState ps) (List.replicate n Event.click))
        [Event.loadSuccess g]) =
        g.nodes.map (loadNode (run (initState ps) (List.replicate n Event.click))) := rfl
    rw [hn, List.mem_map] at hmem
    obtain ⟨m, hm, rfl⟩ := hmem
    by_cases hmm : m.isMesh = true
    · have hc : (run (initState ps) (List.replicate n Event.click)).templateColor =
          0xc0c0c0 := by rw [run_templateColor]; rfl
      simp [loadNode, hmm, shaderColor, hc]
    · simp [loadNode, hmm] at hmesh

theorem click_before_load_amended_witness :
    (run (initState []) (List.replicate 1 Event.click)).currentColorIndex = 1 % 3 ∧
    (run (initState []) (List.replicate 1 Event.click)).spaceship = none ∧
    shaderColor (Material.shader 1 0xc0c0c0 true false) = some 0xc0c0c0 :=
  click_before_load_amended [] 1 gltfOne
    ⟨true, Material.shader 1 0xc0c0c0 true false⟩ (List.Mem.head _) rfl

/-- C8: the model load is dispatched once, so a valid trace has at most
one load outcome; on success the spaceship is published scaled by (2,2,2)
at the origin, added to the scene, with every mesh node carrying an
independent clone of the template shader material (with needsUpdate set);
on error the error is reported and nothing else changes, and a trace with
no success leaves the spaceship permanently absent and the camera never
moved, so a click can only advance the palette index. -/
theorem loader_spec :
    (∀ (s : State) (g : Gltf),
      (step s (Event.loadSuccess g)).spaceship =
        some ⟨⟨0, 0, 0⟩, ⟨2, 2, 2⟩, g.nodes.map (loadNode s)⟩ ∧
      (step s (Event.loadSuccess g)).sceneHasSpaceship = true ∧
      (∀ node ∈ g.nodes.map (loadNode s), node.isMesh = true →
        node.material = Material.shader s.timeUniform s.templateColor true false)) ∧
    (∀ s : State, (step s Event.loadError).errorReported = true ∧
      (step s Event.loadError).spaceship = s.spaceship ∧
      (step s Event.loadError).camera = s.camera) ∧
    (∀ evs : List Event, LoadOnce evs → Event.loadError ∈ evs →
      evs.countP isSuccess = 0) ∧
    (∀ (ps : List Vec3) (evs : List Event), evs.countP isSuccess = 0 →
      (run (initState ps) evs).spaceship = none ∧
      (run (initState ps) evs).camera = (initState ps).camera) ∧
    (∀ s : State, s.spaceship = none →
      step s Event.click =
        { s with currentColorIndex := (s.currentColorIndex + 1) % 3 }) := by
  refine ⟨fun s g => ⟨rfl, rfl, fun node hmem hmesh => ?_⟩,
    fun s => ⟨rfl, rfl, rfl⟩, fun evs h1 h2 => ?_, fun ps evs h => ?_, fun s h => ?_⟩
  · rw [List.mem_map] at hmem
    obtain ⟨m, hm, rfl⟩ := hmem
    by_cases hmm : m.isMesh = true
    · simp [loadNode, hmm]
    · simp [loadNode, hmm] at hmesh
  · have hsplit := countP_outcome_split evs
    have hpos := countP_error_pos evs h2
    have : evs.countP isLoadOutcome ≤ 1 := h1
    omega
  · exact run_no_success (initState ps) evs rfl h
  · show click s = _
    unfold click
    rw [h]
    rfl

theorem loader_spec_witness :
    ([Event.loadError].countP isSuccess = 0) ∧
    ((run (initState []) [Event.loadError]).spaceship = none ∧
      (run (initState []) [Event.loadError]).camera = (initState []).camera) ∧
    (step (initState []) Event.click =
      { initState [] with currentColorIndex := (0 + 1) % 3 }) :=
  ⟨loader_spec.2.2.1 [Event.loadError] (le_refl 1) (List.Mem.head _),
   loader_spec.2.2.2.1 [] [Event.loadError] rfl,
   loader_spec.2.2.2.2 (initState []) rfl⟩

/-- C10: loading sets the spaceship's position.z to 0 and no event (tick,
key-down, click, load outcome) ever changes it, so spaceship z = 0 is an
invariant of every reachable state, and on any tick with the spaceship
present the camera's z coordinate is exactly 10. -/
theorem spaceship_z_zero_invariant :
    (∀ (s : State) (g : Gltf) (sp : Spaceship),
      (step s (Event.loadSuccess g)).spaceship = some sp → sp.position.z = 0) ∧
    (∀ (s : State) (e : Event), ShipZ0 s → ShipZ0 (step s e)) ∧
    (∀ (ps : List Vec3) (evs : List Event), ShipZ0 (run (initState ps) evs)) ∧
    (∀ (s : State) (sp : Spaceship), ShipZ0 s → s.spaceship = some sp →
      (tick s).camera.position.z = 10) := by
  refine ⟨fun s g sp h => ?_, step_shipZ0, fun ps evs => ?_, fun s sp h hsp => ?_⟩
  · simp only [step, loadSuccess, Option.some.injEq] at h
    rw [← h]
  · exact run_shipZ0 _ _ (fun sp h => by simp [initState] at h)
  · show (cameraFollow s.spaceship s.camera).position.z = 10
    rw [hsp]
    show sp.position.z + 10 = 10
    rw [h sp hsp]
    norm_num

theorem spaceship_z_zero_invariant_witness :
    ((⟨⟨0, 0, 0⟩, ⟨2, 2, 2⟩,
        [⟨true, Material.shader 1 0xc0c0c0 true false⟩]⟩ : Spaceship).position.z = 0) ∧
    (tick (step (initState []) (Event.loadSuccess gltfOne))).camera.position.z = 10 :=
  ⟨spaceship_z_zero_invariant.1 (initState []) gltfOne
     ⟨⟨0, 0, 0⟩, ⟨2, 2, 2⟩, [⟨true, Material.shader 1 0xc0c0c0 true false⟩]⟩ rfl,
   spaceship_z_zero_invariant.2.2.2 (step (initState []) (Event.loadSuccess gltfOne))
     ⟨⟨0, 0, 0⟩, ⟨2, 2, 2⟩, [⟨true, Material.shader 1 0xc0c0c0 true false⟩]⟩
     (fun sp h => by
       simp only [step, loadSuccess, Option.some.injEq] at h
       rw [← h])
     rfl⟩
